import Mathlib

/-!
Verification of the booking availability and lifecycle engine of a
vacation-rental marketplace backend (Django app `listings`).

Shallow embedding conventions:
* `DateField` values are day numbers, modeled as `Int`; the difference of two
  dates in whole days is plain integer subtraction.
* `DateTimeField` timestamps are modeled as `Int`; "the current time"
  (`timezone.now()`) and "today" (`timezone.now().date()` / `date.today()`)
  are passed as explicit parameters.
* `DecimalField(max_digits=10, decimal_places=2)` amounts are exact fixed-point
  values; they are modeled as `Int` (all arithmetic on them here is integer
  multiplication and addition, which is scale-invariant).
* Database rows are Lean structures; a queryset is a `List`; foreign keys are
  stored as numeric ids; `request.user` is a numeric user id.
* Fields that no modeled operation reads or writes (addresses, amenities,
  images, payment bookkeeping, auto-managed `created_at`/`updated_at`) are
  omitted from the structures.
* A DRF serializer path that can raise `ValidationError` is modeled as an
  `Except String` computation; the error string is the message raised.
-/

namespace AlxTravel

/-- Booking.STATUS_CHOICES from `listings/models.py`. -/
inductive BStatus where
  | pending
  | confirmed
  | active
  | completed
  | cancelled
deriving DecidableEq, Repr

/-- Listing (`listings/models.py`): the fields read by the modeled operations
(capacity, pricing, stay-length rules) plus an id for foreign keys. -/
structure Listing where
  id : Nat
  max_guests : Nat
  base_price : Int
  cleaning_fee : Int
  security_deposit : Int
  minimum_stay : Nat
  maximum_stay : Nat
deriving DecidableEq, Repr

/-- Booking (`listings/models.py`): relationship ids, date range, guest count,
pricing snapshot, status and lifecycle timestamps. -/
structure Booking where
  id : Nat
  listing_id : Nat
  guest : Nat
  check_in : Int
  check_out : Int
  number_of_guests : Nat
  guest_special_requests : String
  total_price : Int
  security_deposit_held : Int
  status : BStatus
  confirmed_at : Option Int
  cancelled_at : Option Int
deriving DecidableEq, Repr

/-- Review (`listings/models.py`): relationship ids, rating, content and
moderation flags. -/
structure Review where
  listing_id : Nat
  booking_id : Nat
  author : Nat
  rating : Nat
  title : String
  comment : String
  is_verified : Bool
  is_public : Bool
deriving DecidableEq, Repr

/-- `Listing.is_available` (models.py lines 83-89): filter this listing's
bookings by `Q(check_in__lt=check_out) & Q(check_out__gt=check_in)` and
`status__in=['confirmed', 'active']`; available iff no such booking exists.
`bookings` is the booking table; `self.bookings` is the rows whose
`listing_id` is this listing's id. -/
def Listing.is_available (l : Listing) (bookings : List Booking)
    (check_in check_out : Int) : Bool :=
  let overlapping_bookings := bookings.filter (fun b =>
    b.listing_id == l.id
    && (b.status == BStatus.confirmed || b.status == BStatus.active)
    && (decide (b.check_in < check_out) && decide (b.check_out > check_in)))
  overlapping_bookings.isEmpty

/-- `Booking.duration` (models.py lines 160-163): `(check_out - check_in).days`. -/
def Booking.duration (b : Booking) : Int :=
  b.check_out - b.check_in

/-- `Booking.is_active` (models.py lines 165-170): status is `'active'` and
today falls in the closed interval `[check_in, check_out]`. -/
def Booking.is_active (b : Booking) (today : Int) : Bool :=
  b.status == BStatus.active
    && (decide (b.check_in ≤ today) && decide (today ≤ b.check_out))

/-- `Booking.can_be_cancelled` (models.py lines 172-175): status in
`['pending', 'confirmed']` and not `is_active`. -/
def Booking.can_be_cancelled (b : Booking) (today : Int) : Bool :=
  (b.status == BStatus.pending || b.status == BStatus.confirmed)
    && !(b.is_active today)

/-- `Booking.calculate_total_price` (models.py lines 177-181):
`duration * listing.base_price + listing.cleaning_fee`. The booking's listing
row is passed explicitly. -/
def Booking.calculate_total_price (b : Booking) (listing : Listing) : Int :=
  let duration := b.duration
  let base_cost := duration * listing.base_price
  base_cost + listing.cleaning_fee

/-- `Review.save` (models.py lines 226-231): before persisting, copy
`listing` and `author` from the linked booking (the `OneToOneField` is
non-null, so the `if self.booking:` guard is always taken). -/
def Review.save (rv : Review) (booking : Booking) : Review :=
  { rv with listing_id := booking.listing_id, author := booking.guest }

/-- Input data of `CreateBookingSerializer` (serializers.py lines 91-101):
the writable fields `listing`, `check_in`, `check_out`, `number_of_guests`,
`guest_special_requests`. The `listing` FK is resolved to its row. -/
structure BookingRequest where
  listing : Listing
  check_in : Int
  check_out : Int
  number_of_guests : Nat
  guest_special_requests : String
deriving DecidableEq, Repr

namespace CreateBookingSerializer

/-- `CreateBookingSerializer.validate` (serializers.py lines 103-139):
the checks exactly in source order, each raising its `ValidationError`
message. `today` is `date.today()`; `bookings` is the booking table read by
`listing.is_available`. -/
def validate (bookings : List Booking) (today : Int) (data : BookingRequest) :
    Except String Unit :=
  if data.check_in ≥ data.check_out then
    Except.error "Check-out date must be after check-in date."
  else if data.check_in < today then
    Except.error "Check-in date cannot be in the past."
  else if !(data.listing.is_available bookings data.check_in data.check_out) then
    Except.error "This listing is not available for the selected dates."
  else if data.number_of_guests > data.listing.max_guests then
    Except.error ("This listing accommodates maximum "
      ++ toString data.listing.max_guests ++ " guests.")
  else if data.check_out - data.check_in < (data.listing.minimum_stay : Int) then
    Except.error ("Minimum stay for this listing is "
      ++ toString data.listing.minimum_stay ++ " nights.")
  else if data.check_out - data.check_in > (data.listing.maximum_stay : Int) then
    Except.error ("Maximum stay for this listing is "
      ++ toString data.listing.maximum_stay ++ " nights.")
  else
    Except.ok ()

/-- `CreateBookingSerializer.create` (serializers.py lines 141-153): compute
`total_price = duration * base_price + cleaning_fee`, set the guest to the
requesting user, snapshot the security deposit, and build the booking row
(status and timestamps take the model defaults: `'pending'`, null). -/
def create (new_id : Nat) (user : Nat) (validated_data : BookingRequest) : Booking :=
  let listing := validated_data.listing
  let duration := validated_data.check_out - validated_data.check_in
  let base_cost := duration * listing.base_price
  let total_price := base_cost + listing.cleaning_fee
  { id := new_id
    listing_id := listing.id
    guest := user
    check_in := validated_data.check_in
    check_out := validated_data.check_out
    number_of_guests := validated_data.number_of_guests
    guest_special_requests := validated_data.guest_special_requests
    total_price := total_price
    security_deposit_held := listing.security_deposit
    status := BStatus.pending
    confirmed_at := none
    cancelled_at := none }

end CreateBookingSerializer

/-- The booking-creation endpoint: run `CreateBookingSerializer.validate`;
on success persist the booking built by `CreateBookingSerializer.create`
(appended to the table); on failure nothing is persisted and the
`ValidationError` propagates. -/
def createBooking (bookings : List Booking) (today : Int) (new_id user : Nat)
    (data : BookingRequest) : Except String (List Booking) :=
  match CreateBookingSerializer.validate bookings today data with
  | Except.error e => Except.error e
  | Except.ok () =>
      Except.ok (bookings ++ [CreateBookingSerializer.create new_id user data])

namespace BookingStatusSerializer

/-- The `valid_transitions` table of `BookingStatusSerializer.validate_status`
(serializers.py lines 220-226). -/
def valid_transitions : BStatus → List BStatus
  | BStatus.pending => [BStatus.confirmed, BStatus.cancelled]
  | BStatus.confirmed => [BStatus.active, BStatus.cancelled]
  | BStatus.active => [BStatus.completed]
  | BStatus.completed => []
  | BStatus.cancelled => []

/-- `BookingStatusSerializer.validate_status` (serializers.py lines 219-234):
accept the target status iff it is listed for the instance's current status,
otherwise raise a `ValidationError`. -/
def validate_status (inst : Booking) (value : BStatus) : Except String BStatus :=
  if value ∈ valid_transitions inst.status then
    Except.ok value
  else
    Except.error "Cannot change status from the current status to the requested one"

/-- `BookingStatusSerializer.update` (serializers.py lines 236-245): set the
new status; entering `confirmed` from `pending` stamps `confirmed_at := now`;
entering `cancelled` from `pending`/`confirmed` stamps `cancelled_at := now`. -/
def update (inst : Booking) (new_status : BStatus) (now : Int) : Booking :=
  if new_status == BStatus.confirmed && inst.status == BStatus.pending then
    { inst with status := new_status, confirmed_at := some now }
  else if new_status == BStatus.cancelled
      && (inst.status == BStatus.pending
          || inst.status == BStatus.confirmed) then
    { inst with status := new_status, cancelled_at := some now }
  else
    { inst with status := new_status }

end BookingStatusSerializer

/-- The status-update endpoint: `validate_status` then
`BookingStatusSerializer.update`; a `ValidationError` aborts before any write. -/
def updateStatus (b : Booking) (target : BStatus) (now : Int) :
    Except String Booking :=
  match BookingStatusSerializer.validate_status b target with
  | Except.error e => Except.error e
  | Except.ok v => Except.ok (BookingStatusSerializer.update b v now)

/-- The booking row stored after a status-update request: the updated row on
success, the untouched row when the request was rejected. -/
def applyStatusUpdate (b : Booking) (target : BStatus) (now : Int) : Booking :=
  match updateStatus b target now with
  | Except.ok b' => b'
  | Except.error _ => b

/-- `BookingViewSet.cancel` (views.py lines 138-150): if `can_be_cancelled`,
set status to `'cancelled'` and stamp `cancelled_at`; otherwise respond with
the 400 error and touch nothing. -/
def BookingViewSet.cancel (b : Booking) (today now : Int) : Except String Booking :=
  if b.can_be_cancelled today then
    Except.ok { b with status := BStatus.cancelled, cancelled_at := some now }
  else
    Except.error "This booking cannot be cancelled."

/-- The booking row stored after a cancel request: updated on success,
untouched on the 400 response. -/
def applyCancel (b : Booking) (today now : Int) : Booking :=
  match BookingViewSet.cancel b today now with
  | Except.ok b' => b'
  | Except.error _ => b

/-- The model validators on `Review.rating` (models.py lines 191-193):
`MinValueValidator(1)`, `MaxValueValidator(5)`, enforced by the serializer's
field validation. -/
def ratingFieldValid (rating : Nat) : Bool :=
  decide (1 ≤ rating) && decide (rating ≤ 5)

/-- The uniqueness of `Review.booking` (the `OneToOneField` and the
`one_review_per_booking` constraint, models.py lines 216-221), enforced by the
serializer's field validation: no stored review may reference this booking. -/
def bookingUniqueValid (reviews : List Review) (booking_id : Nat) : Bool :=
  !(reviews.any (fun rv => rv.booking_id == booking_id))

/-- The review-creation path (`ReviewSerializer`, serializers.py lines
156-199): field validation (rating bounds, unique booking), then
`ReviewSerializer.validate` (requester must be the booking's guest; booking
must be `'completed'`), then `ReviewSerializer.create` (author := requesting
user, listing copied from the booking, `is_verified := True`), then
`Review.save` re-derives listing/author from the booking. The read-only
`listing`/`author`/`is_verified` fields of the serializer mean any
caller-supplied values for them are dropped before this path runs. -/
def createReview (reviews : List Review) (user : Nat) (booking : Booking)
    (rating : Nat) (title comment : String) : Except String Review :=
  if !(ratingFieldValid rating) then
    Except.error "Ensure rating is within the allowed range."
  else if !(bookingUniqueValid reviews booking.id) then
    Except.error "review with this booking already exists."
  else if booking.guest ≠ user then
    Except.error "You can only review your own bookings."
  else if booking.status ≠ BStatus.completed then
    Except.error "You can only review completed bookings."
  else
    Except.ok (Review.save
      { listing_id := booking.listing_id
        booking_id := booking.id
        author := user
        rating := rating
        title := title
        comment := comment
        is_verified := true
        is_public := true } booking)

end AlxTravel

namespace AlxTravel

/-! Concrete rows used by scenario conjuncts and witnesses. -/

/-- Scenario listing: base_price=100, cleaning_fee=20, min_stay=2,
max_stay=14, max_guests=4. -/
def lJune : Listing :=
  { id := 1, max_guests := 4, base_price := 100, cleaning_fee := 20,
    security_deposit := 0, minimum_stay := 2, maximum_stay := 14 }

/-- Scenario booking: confirmed stay over days [1, 5) of the listing. -/
def bJune : Booking :=
  { id := 10, listing_id := 1, guest := 2, check_in := 1, check_out := 5,
    number_of_guests := 2, guest_special_requests := "", total_price := 420,
    security_deposit_held := 0, status := BStatus.confirmed,
    confirmed_at := some 0, cancelled_at := none }

/-- Scenario booking request: 3 nights, days [1, 4), 2 guests. -/
def reqJune : BookingRequest :=
  { listing := lJune, check_in := 1, check_out := 4, number_of_guests := 2,
    guest_special_requests := "" }

/-- C1: `is_available` returns true iff no existing booking of the same
listing with status confirmed/active has a conflicting half-open range, where
[a,b) and [c,d) conflict iff a < d and c < b; in particular a range touching
an existing booking at an endpoint is available and a properly overlapping
range is not. -/
theorem is_available_iff_no_conflict :
    (∀ (l : Listing) (bookings : List Booking) (check_in check_out : Int),
      l.is_available bookings check_in check_out = true ↔
        ∀ b ∈ bookings, b.listing_id = l.id →
          (b.status = BStatus.confirmed ∨ b.status = BStatus.active) →
          ¬(b.check_in < check_out ∧ check_in < b.check_out))
    ∧ lJune.is_available [bJune] 5 9 = true
    ∧ lJune.is_available [bJune] 3 6 = false := by
  refine ⟨?_, by decide, by decide⟩
  intro l bookings ci co
  rw [Listing.is_available]
  rw [List.isEmpty_iff, List.filter_eq_nil_iff]
  simp only [Bool.and_eq_true, Bool.or_eq_true, beq_iff_eq, decide_eq_true_eq,
    gt_iff_lt]
  constructor
  · intro h b hb
    have := h b hb
    tauto
  · intro h b hb
    have := h b hb
    tauto

/-- C2: the total price computed on the booking-creation path is
nights × base_price + cleaning_fee, and it agrees with
`Booking.calculate_total_price` on the created booking. -/
theorem create_total_price (new_id user : Nat) (r : BookingRequest)
    (h : r.check_in < r.check_out) :
    (CreateBookingSerializer.create new_id user r).total_price
        = (r.check_out - r.check_in) * r.listing.base_price
            + r.listing.cleaning_fee
    ∧ Booking.calculate_total_price (CreateBookingSerializer.create new_id user r)
          r.listing
        = (CreateBookingSerializer.create new_id user r).total_price := by
  exact ⟨rfl, rfl⟩

/-- C2 witness: scenario 1, a 3-night stay at base_price=100, cleaning_fee=20
totals 320. -/
theorem create_total_price_witness :
    reqJune.check_in < reqJune.check_out
    ∧ (CreateBookingSerializer.create 11 7 reqJune).total_price = 320 := by
  refine ⟨by decide, ?_⟩
  have h := create_total_price 11 7 reqJune (by decide)
  exact h.1.trans (by decide)

/-- The five legal transitions of the booking state machine. -/
def legal_transition_pairs : List (BStatus × BStatus) :=
  [(BStatus.pending, BStatus.confirmed), (BStatus.pending, BStatus.cancelled),
   (BStatus.confirmed, BStatus.active), (BStatus.confirmed, BStatus.cancelled),
   (BStatus.active, BStatus.completed)]

/-- C3: a status-update request succeeds exactly for the five legal
transitions pending→confirmed, pending→cancelled, confirmed→active,
confirmed→cancelled, active→completed; every other request (including out of
completed/cancelled) is rejected and leaves the stored booking unchanged. -/
theorem updateStatus_legal_iff (b : Booking) (t : BStatus) (now : Int) :
    ((∃ b', updateStatus b t now = Except.ok b') ↔
      (b.status, t) ∈ legal_transition_pairs)
    ∧ (∀ msg, updateStatus b t now = Except.error msg →
        applyStatusUpdate b t now = b) := by
  constructor
  · cases hst : b.status <;> cases t <;>
      simp [updateStatus, BookingStatusSerializer.validate_status,
        BookingStatusSerializer.valid_transitions, legal_transition_pairs, hst]
  · intro msg hmsg
    simp [applyStatusUpdate, hmsg]

/-- A pending booking whose date range contains day 10. -/
def bLiveC4 : Booking :=
  { id := 20, listing_id := 1, guest := 2, check_in := 5, check_out := 15,
    number_of_guests := 1, guest_special_requests := "", total_price := 0,
    security_deposit_held := 0, status := BStatus.pending,
    confirmed_at := none, cancelled_at := none }

/-- C4 counterexample: a pending booking whose dates contain today (day 10)
is reported cancellable by the code, refuting the claimed equivalence
`can_be_cancelled = true ↔ status ∈ {pending, confirmed} ∧ ¬(check_in ≤ today
≤ check_out)`. -/
theorem can_be_cancelled_claim_false :
    ¬(bLiveC4.can_be_cancelled 10 = true ↔
      ((bLiveC4.status = BStatus.pending ∨ bLiveC4.status = BStatus.confirmed)
        ∧ ¬(bLiveC4.check_in ≤ 10 ∧ 10 ≤ bLiveC4.check_out))) := by
  decide

/-- C4 amended: `can_be_cancelled` is true iff the status is pending or
confirmed; the `not is_active` conjunct is vacuous for those statuses because
`is_active` itself requires status = 'active', so the booking's dates (and
today) are irrelevant. -/
theorem can_be_cancelled_iff (b : Booking) (today : Int) :
    b.can_be_cancelled today = true ↔
      (b.status = BStatus.pending ∨ b.status = BStatus.confirmed) := by
  cases hst : b.status <;>
    simp [Booking.can_be_cancelled, Booking.is_active, hst]

/-- C7: requesting cancellation of an already-cancelled booking yields the
clearly reported error response and leaves every field of the stored booking
(its `cancelled_at` included) unchanged. -/
theorem cancel_cancelled_noop (b : Booking) (today now : Int)
    (h : b.status = BStatus.cancelled) :
    BookingViewSet.cancel b today now
        = Except.error "This booking cannot be cancelled."
    ∧ applyCancel b today now = b := by
  have hcan : b.can_be_cancelled today = false := by
    simp [Booking.can_be_cancelled, Booking.is_active, h]
  refine ⟨?_, ?_⟩
  · simp [BookingViewSet.cancel, hcan]
  · simp [applyCancel, BookingViewSet.cancel, hcan]

/-- An already-cancelled booking row. -/
def bCancelled : Booking :=
  { bLiveC4 with id := 21, status := BStatus.cancelled, cancelled_at := some 50 }

/-- C7 witness: the concrete already-cancelled booking, on a repeated cancel
request at day 10, keeps `cancelled_at = some 50` and every other field. -/
theorem cancel_cancelled_noop_witness :
    BookingViewSet.cancel bCancelled 10 99
        = Except.error "This booking cannot be cancelled."
    ∧ applyCancel bCancelled 10 99 = bCancelled :=
  cancel_cancelled_noop bCancelled 10 99 rfl

end AlxTravel

namespace AlxTravel

/-- The six rules of the booking-creation path. -/
inductive CreationRule where
  | dateOrdering
  | pastCheckIn
  | availability
  | guestCeiling
  | minStay
  | maxStay
deriving DecidableEq, Repr

/-- The first rule a booking request violates, checking in the code's order:
date ordering, past check-in, availability, guest ceiling, minimum stay,
maximum stay; `none` when no rule is violated. -/
def firstViolatedRule (bookings : List Booking) (today : Int)
    (data : BookingRequest) : Option CreationRule :=
  if data.check_in ≥ data.check_out then some CreationRule.dateOrdering
  else if data.check_in < today then some CreationRule.pastCheckIn
  else if !(data.listing.is_available bookings data.check_in data.check_out) then
    some CreationRule.availability
  else if data.number_of_guests > data.listing.max_guests then
    some CreationRule.guestCeiling
  else if data.check_out - data.check_in < (data.listing.minimum_stay : Int) then
    some CreationRule.minStay
  else if data.check_out - data.check_in > (data.listing.maximum_stay : Int) then
    some CreationRule.maxStay
  else none

/-- The `ValidationError` message each creation rule raises. -/
def ruleMessage (data : BookingRequest) : CreationRule → String
  | CreationRule.dateOrdering => "Check-out date must be after check-in date."
  | CreationRule.pastCheckIn => "Check-in date cannot be in the past."
  | CreationRule.availability =>
      "This listing is not available for the selected dates."
  | CreationRule.guestCeiling =>
      "This listing accommodates maximum "
        ++ toString data.listing.max_guests ++ " guests."
  | CreationRule.minStay =>
      "Minimum stay for this listing is "
        ++ toString data.listing.minimum_stay ++ " nights."
  | CreationRule.maxStay =>
      "Maximum stay for this listing is "
        ++ toString data.listing.maximum_stay ++ " nights."

/-- A request for 5 guests (above lJune's ceiling of 4) on dates that overlap
the existing confirmed booking bJune. -/
def reqC5 : BookingRequest :=
  { listing := lJune, check_in := 1, check_out := 4, number_of_guests := 5,
    guest_special_requests := "" }

/-- C5 counterexample: a request violating both the guest ceiling and
availability (with date ordering satisfied) is rejected with the availability
error, not the guest-count error, so the code checks availability before the
guest ceiling — not after the stay bounds as claimed. -/
theorem validate_order_claim_false :
    reqC5.check_in < reqC5.check_out
    ∧ reqC5.number_of_guests > reqC5.listing.max_guests
    ∧ CreateBookingSerializer.validate [bJune] 0 reqC5
        = Except.error "This listing is not available for the selected dates." := by
  refine ⟨by decide, by decide, ?_⟩
  rfl

/-- C5 amended: the creation path checks, in order: date ordering, past
check-in, availability, guest ceiling, minimum stay, maximum stay; a request
violating no rule validates, otherwise the error raised is the message of the
first rule violated in that order, and on any validation error no booking is
persisted. -/
theorem validate_first_violated (bookings : List Booking) (today : Int)
    (data : BookingRequest) :
    (CreateBookingSerializer.validate bookings today data = Except.ok ()
        ↔ firstViolatedRule bookings today data = none)
    ∧ (∀ rule, firstViolatedRule bookings today data = some rule →
        CreateBookingSerializer.validate bookings today data
          = Except.error (ruleMessage data rule))
    ∧ (∀ e new_id user,
        CreateBookingSerializer.validate bookings today data = Except.error e →
        createBooking bookings today new_id user data = Except.error e) := by
  have heq : CreateBookingSerializer.validate bookings today data
      = (match firstViolatedRule bookings today data with
         | some rule => Except.error (ruleMessage data rule)
         | none => Except.ok ()) := by
    unfold CreateBookingSerializer.validate firstViolatedRule
    split_ifs <;> rfl
  refine ⟨?_, ?_, ?_⟩
  · rw [heq]
    cases firstViolatedRule bookings today data <;> simp
  · intro rule hrule
    rw [heq, hrule]
  · intro e new_id user hv
    simp [createBooking, hv]

/-- C6: under the reachable-state invariant (a pending booking has no
`confirmed_at` yet — true of every freshly created booking and preserved by
every transition, since none returns to pending), a successful transition
into confirmed finds `confirmed_at` unset and sets it to now; a transition
into cancelled sets `cancelled_at`; any other successful transition changes
neither timestamp; and the subsequent confirmed → active step keeps both, so
along pending → confirmed → active `confirmed_at` is set exactly once. -/
theorem updateStatus_timestamps (b : Booking) (t : BStatus) (now : Int)
    (hinv : b.status = BStatus.pending → b.confirmed_at = none) :
    ∀ b', updateStatus b t now = Except.ok b' →
      ((t = BStatus.confirmed → b.confirmed_at = none ∧ b'.confirmed_at = some now)
       ∧ (t = BStatus.cancelled → b'.cancelled_at = some now)
       ∧ (t ≠ BStatus.confirmed → t ≠ BStatus.cancelled →
            b'.confirmed_at = b.confirmed_at ∧ b'.cancelled_at = b.cancelled_at)
       ∧ (∀ now2 b2, updateStatus b' BStatus.active now2 = Except.ok b2 →
            b2.confirmed_at = b'.confirmed_at
              ∧ b2.cancelled_at = b'.cancelled_at)) := by
  intro b' hb'
  cases hst : b.status <;> cases t <;>
    simp [updateStatus, BookingStatusSerializer.validate_status,
      BookingStatusSerializer.valid_transitions,
      BookingStatusSerializer.update, hst] at hb' <;>
    subst hb' <;>
    simp_all [updateStatus, BookingStatusSerializer.validate_status,
      BookingStatusSerializer.valid_transitions,
      BookingStatusSerializer.update]

/-- A freshly created pending booking (no timestamps). -/
def bFresh : Booking := { bLiveC4 with id := 22 }

/-- The row after confirming bFresh at time 100. -/
def bFreshConf : Booking :=
  { bFresh with status := BStatus.confirmed, confirmed_at := some 100 }

/-- C6 witness: confirming the concrete fresh pending booking at time 100
finds `confirmed_at` unset and stamps it. -/
theorem updateStatus_timestamps_witness :
    bFresh.confirmed_at = none ∧ bFreshConf.confirmed_at = some 100 := by
  have h := updateStatus_timestamps bFresh BStatus.confirmed 100 (fun _ => rfl)
  have hok : updateStatus bFresh BStatus.confirmed 100 = Except.ok bFreshConf := by
    rfl
  exact (h bFreshConf hok).1 rfl

/-- C8: a review can be created — by the appropriate requester, since the
serializer additionally requires the requesting user to be the booking's
guest — iff the booking is completed, the rating lies in [1,5], and no review
for that booking exists yet; and every successfully created review has
`is_verified = true`. -/
theorem createReview_iff (reviews : List Review) (booking : Booking)
    (rating : Nat) (title comment : String) :
    ((∃ user rv, createReview reviews user booking rating title comment
        = Except.ok rv) ↔
      (booking.status = BStatus.completed ∧ 1 ≤ rating ∧ rating ≤ 5
        ∧ ∀ rv ∈ reviews, rv.booking_id ≠ booking.id))
    ∧ (∀ user rv, createReview reviews user booking rating title comment
          = Except.ok rv → rv.is_verified = true) := by
  have hval : ∀ user rv,
      createReview reviews user booking rating title comment = Except.ok rv →
      (ratingFieldValid rating = true
        ∧ bookingUniqueValid reviews booking.id = true
        ∧ booking.guest = user ∧ booking.status = BStatus.completed) := by
    intro user rv h
    unfold createReview at h
    split_ifs at h with h1 h2 h3 h4
    simp only [Bool.not_eq_true'] at h1 h2
    push_neg at h3 h4
    exact ⟨by simpa using h1, by simpa using h2, h3, h4⟩
  refine ⟨⟨?_, ?_⟩, ?_⟩
  · rintro ⟨user, rv, h⟩
    obtain ⟨h1, h2, _, h4⟩ := hval user rv h
    rw [ratingFieldValid, Bool.and_eq_true, decide_eq_true_eq,
      decide_eq_true_eq] at h1
    rw [bookingUniqueValid, Bool.not_eq_true', List.any_eq_false] at h2
    refine ⟨h4, h1.1, h1.2, ?_⟩
    intro rv' hrv'
    simpa using h2 rv' hrv'
  · rintro ⟨hc, hr1, hr5, huniq⟩
    have hrv : ratingFieldValid rating = true := by
      rw [ratingFieldValid]
      simp [hr1, hr5]
    have hany : bookingUniqueValid reviews booking.id = true := by
      rw [bookingUniqueValid, Bool.not_eq_true', List.any_eq_false]
      intro rv' hrv'
      simpa using huniq rv' hrv'
    have heq : createReview reviews booking.guest booking rating title comment
        = Except.ok (Review.save
            { listing_id := booking.listing_id, booking_id := booking.id,
              author := booking.guest, rating := rating, title := title,
              comment := comment, is_verified := true, is_public := true }
            booking) := by
      unfold createReview
      rw [hrv, hany]
      simp [hc]
    exact ⟨booking.guest, _, heq⟩
  · intro user rv h
    unfold createReview at h
    split_ifs at h
    injection h with h'
    subst h'
    rfl

/-- C9: every save of a review derives its listing and author from the linked
booking — the saved row's listing is the booking's listing and its author is
the booking's guest, whatever values the row carried before — and the
creation path only ever produces rows with this property. -/
theorem review_save_invariant (rv : Review) (booking : Booking) :
    ((Review.save rv booking).listing_id = booking.listing_id
      ∧ (Review.save rv booking).author = booking.guest)
    ∧ (∀ reviews user rating title comment rv',
        createReview reviews user booking rating title comment = Except.ok rv' →
        rv'.listing_id = booking.listing_id ∧ rv'.author = booking.guest) := by
  refine ⟨⟨rfl, rfl⟩, ?_⟩
  intro reviews user rating title comment rv' h
  unfold createReview at h
  split_ifs at h
  injection h with h'
  subst h'
  exact ⟨rfl, rfl⟩

/-- C10: a creation request whose check-in is strictly before today is
rejected with the past-date message — a rule not in the spec's creation-path
list — and no booking is persisted, whatever the other rules say. -/
theorem validate_past_check_in (bookings : List Booking) (today : Int)
    (data : BookingRequest) (hord : data.check_in < data.check_out)
    (hpast : data.check_in < today) :
    CreateBookingSerializer.validate bookings today data
        = Except.error "Check-in date cannot be in the past."
    ∧ ∀ new_id user, createBooking bookings today new_id user data
        = Except.error "Check-in date cannot be in the past." := by
  have h1 : ¬(data.check_in ≥ data.check_out) := not_le.mpr hord
  have hv : CreateBookingSerializer.validate bookings today data
      = Except.error "Check-in date cannot be in the past." := by
    unfold CreateBookingSerializer.validate
    rw [if_neg h1, if_pos hpast]
  exact ⟨hv, fun new_id user => by simp [createBooking, hv]⟩

/-- A request whose check-in (day 5) is before today (day 10) but which
satisfies ordering, guest count, stay bounds and availability. -/
def reqPast : BookingRequest :=
  { listing := lJune, check_in := 5, check_out := 8, number_of_guests := 2,
    guest_special_requests := "" }

/-- C10 witness: the concrete past-dated request is rejected with the
past-date message and creates nothing. -/
theorem validate_past_check_in_witness :
    CreateBookingSerializer.validate [] 10 reqPast
        = Except.error "Check-in date cannot be in the past."
    ∧ createBooking [] 10 30 7 reqPast
        = Except.error "Check-in date cannot be in the past." := by
  have h := validate_past_check_in [] 10 reqPast (by decide) (by decide)
  exact ⟨h.1, h.2 30 7⟩

end AlxTravel
